import Mathlib

/-!
Transaction intake pipeline (`src/backend/index.js`).

A shallow embedding of the submission handler `app.post("/transactions/send")`
and of the queue processor `transactionQueue.process`, together with the three
SQL statements they send through `pool.query`.

Modelling conventions.

* JSON values of a request body are `JVal`; a key that is absent reads as
  `JVal.undefined`, exactly as the destructuring on line 88 yields it.
  Numbers are rationals: the code only tests a number for being zero and
  hands it to the database.  Objects and arrays are opaque blobs.
* The `transactions` table is a list of rows in storage order; a column holds
  the parameter bound for it.  The comparison of the duplicate query is made
  by the database, not in JavaScript: `pg` sends every parameter as text
  (`bindText`), so the number `10` and the string `"10"` reach the database as
  the same value, and the column's type decides when two texts are equal.
  The number-to-text conversion of the runtime and the column types (the
  schema) are not part of the sources; they are the parameter `Conv` of the
  query and of the handler, and every theorem holds for all of them.  `id` is
  unique, as `ON CONFLICT (id)` requires.  A statement that throws has no
  effect on the table.
* Whether a `pool.query` / `transactionQueue.add` call throws is decided by the
  environment and is an explicit argument (`SendEnv`, `Faults`).
* `World.log` records every statement handed to `pool.query`, in order; it is
  instrumentation used to state which queries a path runs.
-/

namespace TransactionSystems

/-! ## Data model -/

/-- JSON values as the handler sees them after `express.json()`. -/
inductive JVal where
  | undefined
  | null
  | bool (b : Bool)
  | num (q : ℚ)
  | str (s : String)
  | obj (json : String)
  deriving DecidableEq, Repr

/-- JavaScript truthiness, the test behind `!x` on line 91: `undefined`,
`null`, `false`, `0` and the empty string are falsy, everything else
(objects and arrays included) is truthy. -/
def JVal.truthy : JVal → Bool
  | .undefined => false
  | .null => false
  | .bool b => b
  | .num q => q != 0
  | .str s => s != ""
  | .obj _ => true

/-- Parameter binding of `pg`: `undefined` is sent as SQL `NULL`. -/
def JVal.toParam : JVal → JVal
  | .undefined => .null
  | v => v

/-- The conversions between the handler and the table that the sources do not
contain: `numText` is the runtime's number-to-string conversion
(`Number.prototype.toString`), and `clientIdIn`, `timestampIn`, `amountIn`
take the text received for a column to the column's value (the identity for a
text column, the numeric value for a numeric one, the instant for a timestamp
column), so that two texts are equal for the column when their values are. -/
structure Conv where
  numText : ℚ → String
  clientIdIn : String → String
  timestampIn : String → String
  amountIn : String → String

/-- The text `pg` sends for a bound parameter (its `prepareValue`): SQL `NULL`
(`none`) for `undefined` and `null`; `toString()` for a boolean, a number or a
string; the serialised text for an object or array. -/
def bindText (c : Conv) : JVal → Option String
  | .undefined => none
  | .null => none
  | .bool b => some (if b then "true" else "false")
  | .num q => some (c.numText q)
  | .str s => some s
  | .obj json => some json

/-- SQL `=` between a stored column value and a bound parameter, both as the
database received them: never true on `NULL`, otherwise equality of the
column's values of the two texts. -/
def sqlEq (c : Conv) (colIn : String → String) (a b : JVal) : Bool :=
  match bindText c a, bindText c b with
  | some x, some y => colIn x == colIn y
  | _, _ => false

/-- Values of the `status` column. -/
inductive Status where
  | pending
  | processing
  | completed
  | failed
  deriving DecidableEq, Repr

/-- One row of the `transactions` table (the eight columns of the INSERT on
lines 151-152). -/
structure Row where
  id : String
  client_id : JVal
  amount : JVal
  currency : JVal
  description : JVal
  timestamp : JVal
  metadata : JVal
  status : Status
  deriving DecidableEq, Repr

/-- The request body fields destructured on line 88. -/
structure Payload where
  id : JVal
  amount : JVal
  currency : JVal
  description : JVal
  timestamp : JVal
  metadata : JVal
  deriving DecidableEq, Repr

/-- The object passed as job data to `transactionQueue.add` (lines 114-122). -/
structure JobData where
  id : String
  clientId : JVal
  amount : JVal
  currency : JVal
  description : JVal
  timestamp : JVal
  metadata : JVal
  deriving DecidableEq, Repr

/-- The options object of `transactionQueue.add` (lines 122-125). -/
structure JobOpts where
  attempts : Nat
  backoff : Nat
  deriving DecidableEq, Repr

/-- A queue entry: job data with its options. -/
structure QueuedJob where
  data : JobData
  opts : JobOpts
  deriving DecidableEq, Repr

/-- The statements the backend hands to `pool.query`. -/
inductive Stmt where
  | selectDup (clientId timestamp amount : JVal)
  | setStatus (st : Status) (id : String)
  | upsertCompleted (d : JobData)
  deriving DecidableEq, Repr

/-- The state the handler and the processor act on: the table, the queue and
the log of statements issued so far. -/
structure World where
  store : List Row
  queue : List QueuedJob
  log : List Stmt
  deriving DecidableEq, Repr

/-- Body of an HTTP response: `res.send(text)`, `res.json` with the three
keys `status`, `message`, `id`, or the 500 text built from `e.message`. -/
inductive Body where
  | text (msg : String)
  | json (status message id : String)
  | error
  deriving DecidableEq, Repr

/-- An HTTP response: status code and body. -/
structure Response where
  code : Nat
  body : Body
  deriving DecidableEq, Repr

/-! ## The SQL statements -/

/-- The WHERE clause of the duplicate query, line 97:
`client_id = $1 AND timestamp = $2 AND amount = $3`. -/
def matchesTriple (c : Conv) (clientId timestamp amount : JVal) (r : Row) : Bool :=
  sqlEq c c.clientIdIn r.client_id clientId && sqlEq c c.timestampIn r.timestamp timestamp
    && sqlEq c c.amountIn r.amount amount

/-- Result rows of `SELECT id FROM transactions WHERE ...` (lines 96-99). -/
def selectDup (c : Conv) (clientId timestamp amount : JVal) (rows : List Row) : List Row :=
  rows.filter (matchesTriple c clientId timestamp amount)

/-- Effect of `UPDATE transactions SET status=<st> WHERE id=$1`
(lines 145 and 161): every row with that id gets the status, no row is
created. -/
def setStatus (st : Status) (id : String) (rows : List Row) : List Row :=
  rows.map fun r => if r.id = id then { r with status := st } else r

/-- The row the INSERT of lines 151-154 proposes. -/
def JobData.toRow (d : JobData) : Row :=
  { id := d.id
    client_id := d.clientId.toParam
    amount := d.amount.toParam
    currency := d.currency.toParam
    description := d.description.toParam
    timestamp := d.timestamp.toParam
    metadata := d.metadata.toParam
    status := .completed }

/-- Effect of `INSERT ... VALUES (..., 'completed') ON CONFLICT (id) DO UPDATE
SET status='completed'` (lines 151-153): when a row with the id exists only its
status is overwritten, otherwise the proposed row is added. -/
def upsertCompleted (d : JobData) (rows : List Row) : List Row :=
  if rows.any (fun r => r.id = d.id) then setStatus .completed d.id rows
  else rows ++ [d.toRow]

/-- The uniqueness constraint on `id` that `ON CONFLICT (id)` relies on. -/
def UniqueIds (rows : List Row) : Prop :=
  (rows.map Row.id).Nodup

instance (rows : List Row) : Decidable (UniqueIds rows) := by
  unfold UniqueIds; infer_instance

/-! ## `POST /transactions/send` -/

/-- What the environment decides during one request: whether the duplicate
query throws, whether `transactionQueue.add` throws, and the value `uuidv4()`
returns. -/
structure SendEnv where
  queryFails : Bool
  addFails : Bool
  uuid : String
  deriving DecidableEq, Repr

/-- The validation on line 91 passes: all five required fields are truthy. -/
def Payload.requiredPresent (p : Payload) : Bool :=
  p.id.truthy && p.amount.truthy && p.currency.truthy && p.description.truthy
    && p.timestamp.truthy

/-- The job data built on lines 114-122. -/
def mkJob (transactionId : String) (p : Payload) : JobData :=
  { id := transactionId
    clientId := p.id
    amount := p.amount
    currency := p.currency
    description := p.description
    timestamp := p.timestamp
    metadata := p.metadata }

/-- The retry options of lines 122-125. -/
def defaultOpts : JobOpts := { attempts := 5, backoff := 5000 }

/-- The handler of `POST /transactions/send` (lines 82-136).  `body` is
`req.body`; `none` is a missing body.  `c` is used by the duplicate query
only. -/
def send (c : Conv) (env : SendEnv) (body : Option Payload) (w : World) :
    Response × World :=
  match body with
  | none => (⟨400, .text "Request body missing or invalid JSON"⟩, w)
  | some p =>
    if !p.id.truthy || !p.amount.truthy || !p.currency.truthy || !p.description.truthy
        || !p.timestamp.truthy then
      (⟨400, .text "Missing required fields"⟩, w)
    else
      let w1 := { w with log := w.log ++ [Stmt.selectDup p.id p.timestamp p.amount] }
      if env.queryFails then (⟨500, .error⟩, w1)
      else
        match selectDup c p.id p.timestamp p.amount w.store with
        | r :: _ => (⟨200, .json "duplicate" "Transaction already exists" r.id⟩, w1)
        | [] =>
          if env.addFails then (⟨500, .error⟩, w1)
          else
            (⟨200, .json "pending" "Transaction queued successfully" env.uuid⟩,
              { w1 with queue := w1.queue ++ [⟨mkJob env.uuid p, defaultOpts⟩] })

/-! ## The queue processor -/

/-- Which of the three store writes of one processor run throw. -/
structure Faults where
  step1 : Bool
  step2 : Bool
  onFail : Bool
  deriving DecidableEq, Repr

/-- How one processor run ends: the async function resolves (`ack`) or
rejects (`fail`). -/
inductive Signal where
  | ack
  | fail
  deriving DecidableEq, Repr

/-- One `pool.query` write: the statement is logged; unless it throws, its
effect is applied to the table. -/
def execWrite (fails : Bool) (q : Stmt) (effect : List Row → List Row) (w : World) :
    Bool × World :=
  let w1 := { w with log := w.log ++ [q] }
  if fails then (false, w1) else (true, { w1 with store := effect w1.store })

/-- The catch block of the processor (lines 158-165): write `failed`, then
rethrow.  If the write itself throws the function rejects all the same. -/
def onError (f : Faults) (d : JobData) (w : World) : Signal × World :=
  (.fail, (execWrite f.onFail (.setStatus .failed d.id) (setStatus .failed d.id) w).2)

/-- The function given to `transactionQueue.process` (lines 139-166). -/
def process (f : Faults) (d : JobData) (w : World) : Signal × World :=
  match execWrite f.step1 (.setStatus .processing d.id) (setStatus .processing d.id) w with
  | (false, w1) => onError f d w1
  | (true, w1) =>
    match execWrite f.step2 (.upsertCompleted d) (upsertCompleted d) w1 with
    | (false, w2) => onError f d w2
    | (true, w2) => (.ack, w2)

/-! ## Retry policy of the job queue -/

/-- Final set a job ends in. -/
inductive JobFinal where
  | completed
  | deadLettered
  deriving DecidableEq, Repr

/-- Outcome of delivering one job until it is acknowledged or dead-lettered. -/
structure JobRun where
  attemptsMade : Nat
  final : JobFinal
  world : World
  deriving DecidableEq, Repr

/-- Modelled from the spec: the retry engine of the job queue (the `bull`
library, not part of the sources).  Section 4.2: on `fail`, a job whose attempt
count is below `max_attempts` is queued again after the fixed backoff delay;
once attempts are exhausted it is moved to the failed set and not retried.
`faults n` are the faults of attempt number `n` (from 0); `left` counts the
retries still allowed after the current attempt. -/
def attemptLoop (faults : Nat → Faults) (d : JobData) : Nat → Nat → World → JobRun
  | left, made, w =>
    match process (faults made) d w with
    | (.ack, w1) => ⟨made + 1, .completed, w1⟩
    | (.fail, w1) =>
      match left with
      | 0 => ⟨made + 1, .deadLettered, w1⟩
      | k + 1 => attemptLoop faults d k (made + 1) w1

/-- Modelled from the spec: delivery of a queued job under its `attempts`
option (section 4.2, `max_attempts`). -/
def runJob (faults : Nat → Faults) (j : QueuedJob) (w : World) : JobRun :=
  attemptLoop faults j.data (j.opts.attempts - 1) 0 w

/-! ## Sample data -/

/-- The payload of the concrete scenario of the specification:
`{id:"C1", amount:10.00, currency:"USD", description:"x",
timestamp:"2024-01-01T00:00:00Z"}`, `metadata` omitted. -/
def scenarioPayload : Payload :=
  ⟨.str "C1", .num 10, .str "USD", .str "x", .str "2024-01-01T00:00:00Z", .undefined⟩

/-- The scenario payload with `amount` omitted. -/
def noAmountPayload : Payload :=
  ⟨.str "C1", .undefined, .str "USD", .str "x", .str "2024-01-01T00:00:00Z", .undefined⟩

/-- An empty table, an empty queue, no statement issued yet. -/
def emptyWorld : World := ⟨[], [], []⟩

/-- A world whose table holds one unrelated row. -/
def otherWorld : World :=
  ⟨[⟨"t0", .str "A", .num 7, .str "EUR", .str "y", .str "2024-01-01T00:00:00Z", .null,
      .completed⟩], [], []⟩

/-- The job the scenario payload is queued as under the generated id `id1`. -/
def scenarioJob : JobData := mkJob "id1" scenarioPayload

/-- A world whose table already holds the completed row of `scenarioJob`, as on
a re-delivery of an acknowledged job. -/
def redeliveryWorld : World := ⟨[scenarioJob.toRow], [], []⟩

/-- Every store write throws on every attempt (the store is unreachable). -/
def storeDown : Nat → Faults := fun _ => ⟨true, true, true⟩

/-- The upsert throws on every attempt; the status writes go through. -/
def upsertDown : Nat → Faults := fun _ => ⟨false, true, false⟩

/-- The scenario payload with a negative amount. -/
def negativeAmountPayload : Payload :=
  ⟨.str "C1", .num (-5), .str "USD", .str "x", .str "2024-01-01T00:00:00Z", .undefined⟩

/-- The scenario payload with amount zero. -/
def zeroAmountPayload : Payload :=
  ⟨.str "C1", .num 0, .str "USD", .str "x", .str "2024-01-01T00:00:00Z", .undefined⟩

/-- Conversions for the sample data: an integer-valued number is rendered in
decimal digits, as JavaScript renders it (the samples use no other numbers), and
the three columns compare the received text as it is. -/
def sampleConv : Conv :=
  { numText := fun q =>
      if q.den = 1 then toString q.num else toString q.num ++ "/" ++ toString q.den
    clientIdIn := id
    timestampIn := id
    amountIn := id }

/-- The scenario payload with the amount sent as the string `"10"`. -/
def textAmountPayload : Payload :=
  ⟨.str "C1", .str "10", .str "USD", .str "x", .str "2024-01-01T00:00:00Z", .undefined⟩

/-- A world whose table holds two rows of the scenario triple, the first
bound from the amount `"10"` (a string), the second from the amount `10`
(a number). -/
def mixedWorld : World :=
  ⟨[⟨"tA", .str "C1", .str "10", .str "USD", .str "x", .str "2024-01-01T00:00:00Z", .null,
      .completed⟩,
    ⟨"tB", .str "C1", .num 10, .str "USD", .str "x", .str "2024-01-01T00:00:00Z", .null,
      .completed⟩], [], []⟩

/-! ## Auxiliary facts -/

theorem bindText_toParam (c : Conv) (v : JVal) : bindText c v.toParam = bindText c v := by
  cases v <;> rfl

theorem bindText_truthy (c : Conv) {v : JVal} (h : v.truthy = true) :
    ∃ t, bindText c v = some t := by
  cases v <;> simp_all [JVal.truthy, bindText]

/-- A value that passes the presence test equals itself in the database. -/
theorem sqlEq_self (c : Conv) (colIn : String → String) {v : JVal}
    (h : v.truthy = true) : sqlEq c colIn v.toParam v = true := by
  obtain ⟨t, ht⟩ := bindText_truthy c h
  simp [sqlEq, bindText_toParam, ht]

/-- Values bound as the same text are equal in the database when not `NULL`. -/
theorem sqlEq_of_bindText_eq (c : Conv) (colIn : String → String) {a v : JVal}
    (h : v.truthy = true) (hab : bindText c a = bindText c v) :
    sqlEq c colIn a v = true := by
  obtain ⟨t, ht⟩ := bindText_truthy c h
  simp [sqlEq, hab, ht]

theorem requiredPresent_iff (p : Payload) :
    p.requiredPresent = true ↔
      p.id.truthy = true ∧ p.amount.truthy = true ∧ p.currency.truthy = true ∧
        p.description.truthy = true ∧ p.timestamp.truthy = true := by
  simp [Payload.requiredPresent, and_assoc]

/-- A row whose three key columns were bound as the same texts as the
payload's id, timestamp and amount answers the payload's duplicate query. -/
theorem matchesTriple_of_bindText_eq (c : Conv) {p : Payload}
    (hp : p.requiredPresent = true) {r : Row}
    (h1 : bindText c r.client_id = bindText c p.id)
    (h2 : bindText c r.timestamp = bindText c p.timestamp)
    (h3 : bindText c r.amount = bindText c p.amount) :
    matchesTriple c p.id p.timestamp p.amount r = true := by
  obtain ⟨t1, t2, -, -, t5⟩ := (requiredPresent_iff p).1 hp
  simp [matchesTriple, sqlEq_of_bindText_eq c _ t1 h1, sqlEq_of_bindText_eq c _ t5 h2,
    sqlEq_of_bindText_eq c _ t2 h3]

/-- Past validation, the handler is decided by the duplicate query. -/
theorem send_present (c : Conv) {p : Payload} (hp : p.requiredPresent = true)
    (env : SendEnv) (w : World) :
    send c env (some p) w =
      if env.queryFails then
        (⟨500, .error⟩, { w with log := w.log ++ [Stmt.selectDup p.id p.timestamp p.amount] })
      else
        match selectDup c p.id p.timestamp p.amount w.store with
        | r :: _ =>
          (⟨200, .json "duplicate" "Transaction already exists" r.id⟩,
            { w with log := w.log ++ [Stmt.selectDup p.id p.timestamp p.amount] })
        | [] =>
          if env.addFails then
            (⟨500, .error⟩,
              { w with log := w.log ++ [Stmt.selectDup p.id p.timestamp p.amount] })
          else
            (⟨200, .json "pending" "Transaction queued successfully" env.uuid⟩,
              { w with
                log := w.log ++ [Stmt.selectDup p.id p.timestamp p.amount]
                queue := w.queue ++ [⟨mkJob env.uuid p, defaultOpts⟩] }) := by
  obtain ⟨h1, h2, h3, h4, h5⟩ := (requiredPresent_iff p).1 hp
  simp only [send, h1, h2, h3, h4, h5, Bool.not_true, Bool.or_self, Bool.false_eq_true,
    if_false]

theorem setStatus_of_not_mem {st : Status} {id : String} {rows : List Row}
    (h : id ∉ rows.map Row.id) : setStatus st id rows = rows := by
  unfold setStatus
  conv_rhs => rw [← List.map_id rows]
  apply List.map_congr_left
  intro r hr
  have hne : r.id ≠ id := fun he => h (he ▸ List.mem_map_of_mem Row.id hr)
  simp [hne]

theorem map_id_setStatus (st : Status) (id : String) (rows : List Row) :
    (setStatus st id rows).map Row.id = rows.map Row.id := by
  unfold setStatus
  rw [List.map_map]
  apply List.map_congr_left
  intro r _
  by_cases h : r.id = id <;> simp [h]

theorem any_id_iff (id : String) (rows : List Row) :
    rows.any (fun r => decide (r.id = id)) = true ↔ id ∈ rows.map Row.id := by
  simp only [List.any_eq_true, decide_eq_true_eq, List.mem_map]

theorem upsertCompleted_of_not_mem {d : JobData} {rows : List Row}
    (h : d.id ∉ rows.map Row.id) : upsertCompleted d rows = rows ++ [d.toRow] := by
  unfold upsertCompleted
  rw [if_neg]
  rw [any_id_iff]
  exact h

theorem upsertCompleted_of_mem {d : JobData} {rows : List Row}
    (h : d.id ∈ rows.map Row.id) :
    upsertCompleted d rows = setStatus .completed d.id rows := by
  unfold upsertCompleted
  rw [if_pos]
  rw [any_id_iff]
  exact h

/-- A processor run whose first two writes succeed. -/
theorem process_ok {f : Faults} (h1 : f.step1 = false) (h2 : f.step2 = false)
    (d : JobData) (w : World) :
    process f d w =
      (.ack,
        { store := upsertCompleted d (setStatus .processing d.id w.store)
          queue := w.queue
          log := w.log ++ [.setStatus .processing d.id, .upsertCompleted d] }) := by
  simp [process, execWrite, h1, h2]

/-- A processor run whose first write throws. -/
theorem process_fail1 {f : Faults} (h1 : f.step1 = true) (d : JobData) (w : World) :
    process f d w =
      (.fail,
        { store := if f.onFail then w.store else setStatus .failed d.id w.store
          queue := w.queue
          log := w.log ++ [.setStatus .processing d.id, .setStatus .failed d.id] }) := by
  cases h3 : f.onFail <;> simp [process, execWrite, onError, h1, h3]

/-- A processor run whose first write succeeds and whose upsert throws. -/
theorem process_fail2 {f : Faults} (h1 : f.step1 = false) (h2 : f.step2 = true)
    (d : JobData) (w : World) :
    process f d w =
      (.fail,
        { store :=
            if f.onFail then setStatus .processing d.id w.store
            else setStatus .failed d.id (setStatus .processing d.id w.store)
          queue := w.queue
          log := w.log ++
            [.setStatus .processing d.id, .upsertCompleted d, .setStatus .failed d.id] }) := by
  cases h3 : f.onFail <;> simp [process, execWrite, onError, h1, h2, h3]

/-- The row a job inserts answers the duplicate query of the payload it was
built from. -/
theorem toRow_matches (c : Conv) {p : Payload} (hp : p.requiredPresent = true)
    (id : String) :
    matchesTriple c p.id p.timestamp p.amount (mkJob id p).toRow = true := by
  obtain ⟨h1, h2, -, -, h5⟩ := (requiredPresent_iff p).1 hp
  have e1 : sqlEq c c.clientIdIn (mkJob id p).toRow.client_id p.id = true :=
    sqlEq_self c _ h1
  have e2 : sqlEq c c.timestampIn (mkJob id p).toRow.timestamp p.timestamp = true :=
    sqlEq_self c _ h5
  have e3 : sqlEq c c.amountIn (mkJob id p).toRow.amount p.amount = true :=
    sqlEq_self c _ h2
  simp [matchesTriple, e1, e2, e3]

theorem mem_setStatus_status {st : Status} {id : String} {rows : List Row} {r : Row}
    (hr : r ∈ setStatus st id rows) (hid : r.id = id) : r.status = st := by
  unfold setStatus at hr
  obtain ⟨r0, -, rfl⟩ := List.mem_map.1 hr
  by_cases h : r0.id = id
  · simp [h]
  · simp [h] at hid

/-- What a failing processor run does: it rejects, issues the step-1 statement
once, keeps the queue and the set of row ids, and, when its `failed` write goes
through, leaves every row of the job's id with status failed. -/
theorem process_failing {f : Faults} (hf : f.step1 = true ∨ f.step2 = true)
    (d : JobData) (w : World) :
    (process f d w).1 = .fail ∧
      (process f d w).2.queue = w.queue ∧
      (process f d w).2.store.map Row.id = w.store.map Row.id ∧
      (process f d w).2.log.count (.setStatus .processing d.id)
        = w.log.count (.setStatus .processing d.id) + 1 ∧
      (f.onFail = false →
        ∀ r ∈ (process f d w).2.store, r.id = d.id → r.status = .failed) := by
  cases h1 : f.step1
  · have h2 : f.step2 = true := by
      rcases hf with h | h
      · rw [h1] at h; exact absurd h (by decide)
      · exact h
    rw [process_fail2 h1 h2]
    refine ⟨rfl, rfl, ?_, ?_, ?_⟩
    · cases f.onFail <;> simp [map_id_setStatus]
    · simp [List.count_append, List.count_cons]
    · intro h3 r hr hid
      simp only [h3, Bool.false_eq_true, if_false] at hr
      exact mem_setStatus_status hr hid
  · rw [process_fail1 h1]
    refine ⟨rfl, rfl, ?_, ?_, ?_⟩
    · cases f.onFail <;> simp [map_id_setStatus]
    · simp [List.count_append, List.count_cons]
    · intro h3 r hr hid
      simp only [h3, Bool.false_eq_true, if_false] at hr
      exact mem_setStatus_status hr hid

/-- The retry loop on a job all of whose attempts fail: it stops after
`left + 1` further attempts in the dead-letter set. -/
theorem attemptLoop_failing (faults : Nat → Faults) (d : JobData)
    (hf : ∀ n, (faults n).step1 = true ∨ (faults n).step2 = true) :
    ∀ (left made : Nat) (w : World),
      (attemptLoop faults d left made w).attemptsMade = made + left + 1 ∧
      (attemptLoop faults d left made w).final = .deadLettered ∧
      (attemptLoop faults d left made w).world.store.map Row.id = w.store.map Row.id ∧
      (attemptLoop faults d left made w).world.log.count (.setStatus .processing d.id)
        = w.log.count (.setStatus .processing d.id) + (left + 1) ∧
      ((faults (made + left)).onFail = false →
        ∀ r ∈ (attemptLoop faults d left made w).world.store,
          r.id = d.id → r.status = .failed) := by
  intro left
  induction left with
  | zero =>
    intro made w
    obtain ⟨h1, -, h3, h4, h5⟩ := process_failing (hf made) d w
    have hp : process (faults made) d w = (.fail, (process (faults made) d w).2) := by
      rw [← h1]
    unfold attemptLoop
    rw [hp]
    exact ⟨rfl, rfl, h3, h4, h5⟩
  | succ k ih =>
    intro made w
    obtain ⟨h1, -, h3, h4, -⟩ := process_failing (hf made) d w
    have hp : process (faults made) d w = (.fail, (process (faults made) d w).2) := by
      rw [← h1]
    obtain ⟨i1, i2, i3, i4, i5⟩ := ih (made + 1) (process (faults made) d w).2
    unfold attemptLoop
    rw [hp]
    refine ⟨?_, i2, ?_, ?_, ?_⟩
    · show (attemptLoop faults d k (made + 1) _).attemptsMade = _
      rw [i1]; omega
    · show (attemptLoop faults d k (made + 1) _).world.store.map Row.id = _
      rw [i3, h3]
    · show (attemptLoop faults d k (made + 1) _).world.log.count _ = _
      rw [i4, h4]; omega
    · have he : made + 1 + k = made + (k + 1) := by omega
      rw [he] at i5
      exact i5

theorem map_id_upsertCompleted_of_mem {d : JobData} {rows : List Row}
    (h : d.id ∈ rows.map Row.id) :
    (upsertCompleted d rows).map Row.id = rows.map Row.id := by
  rw [upsertCompleted_of_mem h, map_id_setStatus]

theorem mem_ids_upsertCompleted (d : JobData) (rows : List Row) :
    d.id ∈ (upsertCompleted d rows).map Row.id := by
  by_cases h : d.id ∈ rows.map Row.id
  · rw [map_id_upsertCompleted_of_mem h]; exact h
  · rw [upsertCompleted_of_not_mem h]
    simp [JobData.toRow]

theorem uniqueIds_upsertCompleted {d : JobData} {rows : List Row} (hu : UniqueIds rows) :
    UniqueIds (upsertCompleted d rows) := by
  unfold UniqueIds at *
  by_cases h : d.id ∈ rows.map Row.id
  · rw [map_id_upsertCompleted_of_mem h]; exact hu
  · rw [upsertCompleted_of_not_mem h, List.map_append, List.nodup_append]
    refine ⟨hu, by simp, ?_⟩
    intro a ha hb
    simp only [List.map_cons, List.map_nil, List.mem_singleton] at hb
    subst hb
    exact h ha

theorem upsertCompleted_status {d : JobData} {rows : List Row} {r : Row}
    (hr : r ∈ upsertCompleted d rows) (hid : r.id = d.id) : r.status = .completed := by
  by_cases h : d.id ∈ rows.map Row.id
  · rw [upsertCompleted_of_mem h] at hr
    exact mem_setStatus_status hr hid
  · rw [upsertCompleted_of_not_mem h, List.mem_append] at hr
    rcases hr with hr | hr
    · exact absurd (hid ▸ List.mem_map_of_mem Row.id hr) h
    · rw [List.mem_singleton] at hr
      subst hr
      rfl

/-- Overwriting a status that every row of the id already has changes nothing. -/
theorem setStatus_fixed {st : Status} {id : String} {rows : List Row}
    (h : ∀ r ∈ rows, r.id = id → r.status = st) : setStatus st id rows = rows := by
  unfold setStatus
  conv_rhs => rw [← List.map_id rows]
  apply List.map_congr_left
  intro r hr
  by_cases hid : r.id = id
  · have hs := h r hr hid
    simp only [hid, if_true, id_eq]
    cases r
    simp_all
  · simp [hid]

theorem filter_id_length_of_unique {rows : List Row} (hu : UniqueIds rows) {id : String}
    (hm : id ∈ rows.map Row.id) :
    (rows.filter (fun r => decide (r.id = id))).length = 1 := by
  have hc : (rows.map Row.id).count id = 1 := List.count_eq_one_of_mem hu hm
  rw [List.count, List.countP_map, List.countP_eq_length_filter] at hc
  rw [← hc]
  congr 2

/-- The validation branch of the handler: a falsy required field ends the
request with 400 and the world untouched. -/
theorem send_reject (c : Conv) (env : SendEnv) (p : Payload) (w : World)
    (h : p.id.truthy = false ∨ p.amount.truthy = false ∨ p.currency.truthy = false ∨
      p.description.truthy = false ∨ p.timestamp.truthy = false) :
    send c env (some p) w = (⟨400, .text "Missing required fields"⟩, w) := by
  have hc : (!p.id.truthy || !p.amount.truthy || !p.currency.truthy || !p.description.truthy
      || !p.timestamp.truthy) = true := by
    rcases h with h | h | h | h | h <;> simp [h]
  simp only [send, hc, if_true]

theorem filter_other_setStatus (st : Status) (id : String) (rows : List Row) :
    (setStatus st id rows).filter (fun r => decide (r.id ≠ id))
      = rows.filter (fun r => decide (r.id ≠ id)) := by
  induction rows with
  | nil => rfl
  | cons r rest ih =>
    have hcons : setStatus st id (r :: rest)
        = (if r.id = id then { r with status := st } else r) :: setStatus st id rest := rfl
    rw [hcons]
    by_cases h : r.id = id
    · rw [if_pos h, List.filter_cons_of_neg (by simpa using h),
        List.filter_cons_of_neg (by simpa using h), ih]
    · rw [if_neg h, List.filter_cons_of_pos (by simpa using h),
        List.filter_cons_of_pos (by simpa using h), ih]

theorem filter_other_upsertCompleted (d : JobData) (rows : List Row) :
    (upsertCompleted d rows).filter (fun r => decide (r.id ≠ d.id))
      = rows.filter (fun r => decide (r.id ≠ d.id)) := by
  by_cases h : d.id ∈ rows.map Row.id
  · rw [upsertCompleted_of_mem h, filter_other_setStatus]
  · rw [upsertCompleted_of_not_mem h, List.filter_append]
    simp [JobData.toRow]

/-! ## Submission: duplicate hit, duplicate miss, rejection -/

/-- C1 (duplicate hit).  For a payload whose five required fields pass the
presence test and a store holding at least one row whose
`(client_id, timestamp, amount)` equals the payload's `(id, timestamp, amount)`
for the database (the row answers the duplicate query), the handler (its
duplicate query succeeding) answers 200 with status "duplicate" and the id of
the first such row in the store, leaves the queue as it was and leaves the
store as it was. -/
theorem send_duplicate_hit (c : Conv) (env : SendEnv) (p : Payload) (w : World)
    (hp : p.requiredPresent = true) (hq : env.queryFails = false)
    (hrow : ∃ r ∈ w.store, matchesTriple c p.id p.timestamp p.amount r = true) :
    ∃ r,
      w.store.find? (matchesTriple c p.id p.timestamp p.amount) = some r ∧
      (send c env (some p) w).1
        = ⟨200, .json "duplicate" "Transaction already exists" r.id⟩ ∧
      (send c env (some p) w).2.queue = w.queue ∧
      (send c env (some p) w).2.store = w.store := by
  obtain ⟨r0, hmem, hkey⟩ := hrow
  rw [send_present c hp, hq]
  have hin : r0 ∈ selectDup c p.id p.timestamp p.amount w.store :=
    List.mem_filter.2 ⟨hmem, hkey⟩
  have hhead : (selectDup c p.id p.timestamp p.amount w.store).head?
      = w.store.find? (matchesTriple c p.id p.timestamp p.amount) :=
    List.filter_head? _ _
  rw [← hhead]
  cases hf : selectDup c p.id p.timestamp p.amount w.store with
  | nil => rw [hf] at hin; exact absurd hin (List.not_mem_nil _)
  | cons r rest => exact ⟨r, by simp, by simp⟩

/-- C1, at a store whose first matching row was bound from the amount `"10"`
and whose second from the amount `10`, with the payload amount `10`: the
answer names the first row, `tA`. -/
theorem send_duplicate_hit_witness :
    ∃ r,
      mixedWorld.store.find?
          (matchesTriple sampleConv scenarioPayload.id scenarioPayload.timestamp
            scenarioPayload.amount) = some r ∧
      (send sampleConv ⟨false, false, "u1"⟩ (some scenarioPayload) mixedWorld).1
        = ⟨200, .json "duplicate" "Transaction already exists" r.id⟩ ∧
      (send sampleConv ⟨false, false, "u1"⟩ (some scenarioPayload) mixedWorld).2.queue
        = mixedWorld.queue ∧
      (send sampleConv ⟨false, false, "u1"⟩ (some scenarioPayload) mixedWorld).2.store
        = mixedWorld.store :=
  send_duplicate_hit sampleConv ⟨false, false, "u1"⟩ scenarioPayload mixedWorld
    (by decide) rfl
    ⟨⟨"tA", .str "C1", .str "10", .str "USD", .str "x", .str "2024-01-01T00:00:00Z", .null,
        .completed⟩, by decide, by decide⟩

/-- The binding at work: the text of the number `10` and of the string `"10"`
is the same, so each payload is a duplicate of the first row of `mixedWorld`,
and the string payload is a duplicate of a row stored from the number. -/
theorem send_duplicate_across_binding :
    (send sampleConv ⟨false, false, "u1"⟩ (some scenarioPayload) mixedWorld).1
        = ⟨200, .json "duplicate" "Transaction already exists" "tA"⟩ ∧
      (send sampleConv ⟨false, false, "u1"⟩ (some textAmountPayload) mixedWorld).1
        = ⟨200, .json "duplicate" "Transaction already exists" "tA"⟩ ∧
      (send sampleConv ⟨false, false, "u1"⟩ (some textAmountPayload) redeliveryWorld).1
        = ⟨200, .json "duplicate" "Transaction already exists" "id1"⟩ := by
  decide

/-- C2 (duplicate miss).  For a payload whose five required fields pass the
presence test and a store with no row matching the payload's
`(id, timestamp, amount)` for the database (no row answers the duplicate
query), the handler (query and enqueue succeeding) appends exactly one job to
the queue, carrying the generated identifier with the payload's clientId,
amount, currency, description, timestamp and metadata and the options
attempts = 5, backoff = 5000; it answers 200 with status "pending" and that
identifier; the store is unchanged. -/
theorem send_duplicate_miss (c : Conv) (env : SendEnv) (p : Payload) (w : World)
    (hp : p.requiredPresent = true) (hq : env.queryFails = false)
    (ha : env.addFails = false)
    (hnone : ∀ r ∈ w.store, matchesTriple c p.id p.timestamp p.amount r = false) :
    (send c env (some p) w).1
        = ⟨200, .json "pending" "Transaction queued successfully" env.uuid⟩ ∧
      (send c env (some p) w).2.queue
        = w.queue ++
          [⟨⟨env.uuid, p.id, p.amount, p.currency, p.description, p.timestamp, p.metadata⟩,
            ⟨5, 5000⟩⟩] ∧
      (send c env (some p) w).2.store = w.store := by
  have hnil : selectDup c p.id p.timestamp p.amount w.store = [] := by
    unfold selectDup
    rw [List.filter_eq_nil_iff]
    intro r hr
    simp [hnone r hr]
  rw [send_present c hp, hq, ha, hnil]
  simp [mkJob, defaultOpts]

/-- C2, at the scenario payload and a store holding one unrelated row. -/
theorem send_duplicate_miss_witness :
    (send sampleConv ⟨false, false, "u1"⟩ (some scenarioPayload) otherWorld).1
        = ⟨200, .json "pending" "Transaction queued successfully" "u1"⟩ ∧
      (send sampleConv ⟨false, false, "u1"⟩ (some scenarioPayload) otherWorld).2.queue
        = otherWorld.queue ++
          [⟨⟨"u1", scenarioPayload.id, scenarioPayload.amount, scenarioPayload.currency,
              scenarioPayload.description, scenarioPayload.timestamp,
              scenarioPayload.metadata⟩, ⟨5, 5000⟩⟩] ∧
      (send sampleConv ⟨false, false, "u1"⟩ (some scenarioPayload) otherWorld).2.store
        = otherWorld.store :=
  send_duplicate_miss sampleConv ⟨false, false, "u1"⟩ scenarioPayload otherWorld
    (by decide) rfl rfl (by decide)

/-- C3 (missing-field rejection).  When at least one of id, amount, currency,
description, timestamp is missing from the payload (reads as `undefined`), or
is otherwise falsy, the handler answers 400 and returns the world exactly as it
received it: no statement is added to the query log, no job to the queue, and
the store is unchanged. -/
theorem send_missing_field (c : Conv) (env : SendEnv) (p : Payload) (w : World)
    (h : p.id.truthy = false ∨ p.amount.truthy = false ∨ p.currency.truthy = false ∨
      p.description.truthy = false ∨ p.timestamp.truthy = false) :
    (send c env (some p) w).1.code = 400 ∧
      (send c env (some p) w).2.log = w.log ∧
      (send c env (some p) w).2.queue = w.queue ∧
      (send c env (some p) w).2.store = w.store := by
  rw [send_reject c env p w h]
  exact ⟨rfl, rfl, rfl, rfl⟩

/-- C3, at the scenario payload with `amount` omitted. -/
theorem send_missing_field_witness :
    (send sampleConv ⟨false, false, "u1"⟩ (some noAmountPayload) otherWorld).1.code = 400 ∧
      (send sampleConv ⟨false, false, "u1"⟩ (some noAmountPayload) otherWorld).2.log
        = otherWorld.log ∧
      (send sampleConv ⟨false, false, "u1"⟩ (some noAmountPayload) otherWorld).2.queue
        = otherWorld.queue ∧
      (send sampleConv ⟨false, false, "u1"⟩ (some noAmountPayload) otherWorld).2.store
        = otherWorld.store :=
  send_missing_field sampleConv ⟨false, false, "u1"⟩ noAmountPayload otherWorld
    (Or.inr (Or.inl rfl))

/-! ## Resubmission -/

/-- After a fault-free processor run on the job of a submission that found no
duplicate (its id not yet in the table), the duplicate query of the same
payload returns exactly the inserted row. -/
theorem selectDup_after_process (c : Conv) {p : Payload} (hp : p.requiredPresent = true)
    {rows : List Row} {id : String} (hfresh : id ∉ rows.map Row.id)
    (hnone : ∀ r ∈ rows, matchesTriple c p.id p.timestamp p.amount r = false) :
    selectDup c p.id p.timestamp p.amount
        (upsertCompleted (mkJob id p) (setStatus .processing id rows))
      = [(mkJob id p).toRow] := by
  have hfresh1 : (mkJob id p).id ∉ rows.map Row.id := hfresh
  rw [setStatus_of_not_mem hfresh, upsertCompleted_of_not_mem hfresh1]
  unfold selectDup
  rw [List.filter_append]
  have hnil : rows.filter (matchesTriple c p.id p.timestamp p.amount) = [] := by
    rw [List.filter_eq_nil_iff]
    intro r hr
    simp [hnone r hr]
  rw [hnil]
  simp [toRow_matches c hp id]

/-- C4 (submission twice), as the code has it.  Take a payload whose required
fields pass the presence test, with both duplicate queries and the enqueue
succeeding.  If the store already holds a row matching the payload's triple for
the database, both responses are "duplicate" with the same id.  If it holds
none, the first response is "pending" with the generated id; a second
submission in direct succession is "pending" again with its own generated id;
once the processor has run the first submission's job with both writes
succeeding (the generated id not being in the store already), the second
response is "duplicate" with the first response's id. -/
theorem send_twice (c : Conv) (e1 e2 : SendEnv) (f : Faults) (p : Payload) (w : World)
    (hp : p.requiredPresent = true)
    (h1q : e1.queryFails = false) (h1a : e1.addFails = false)
    (h2q : e2.queryFails = false) (h2a : e2.addFails = false)
    (hf1 : f.step1 = false) (hf2 : f.step2 = false)
    (hfresh : e1.uuid ∉ w.store.map Row.id) :
    ((∃ r ∈ w.store, matchesTriple c p.id p.timestamp p.amount r = true) →
      ∃ id,
        (send c e1 (some p) w).1
          = ⟨200, .json "duplicate" "Transaction already exists" id⟩ ∧
        (send c e2 (some p) (send c e1 (some p) w).2).1
          = ⟨200, .json "duplicate" "Transaction already exists" id⟩) ∧
    ((∀ r ∈ w.store, matchesTriple c p.id p.timestamp p.amount r = false) →
      (send c e1 (some p) w).1
          = ⟨200, .json "pending" "Transaction queued successfully" e1.uuid⟩ ∧
        (send c e2 (some p) (send c e1 (some p) w).2).1
          = ⟨200, .json "pending" "Transaction queued successfully" e2.uuid⟩ ∧
        (send c e2 (some p) (process f (mkJob e1.uuid p) (send c e1 (some p) w).2).2).1
          = ⟨200, .json "duplicate" "Transaction already exists" e1.uuid⟩) := by
  refine ⟨?_, ?_⟩
  · rintro ⟨r0, hmem, hkey⟩
    have hin : r0 ∈ selectDup c p.id p.timestamp p.amount w.store :=
      List.mem_filter.2 ⟨hmem, hkey⟩
    cases hs : selectDup c p.id p.timestamp p.amount w.store with
    | nil => rw [hs] at hin; exact absurd hin (List.not_mem_nil _)
    | cons r rest =>
      refine ⟨r.id, ?_, ?_⟩
      · rw [send_present c hp, h1q, hs]; rfl
      · rw [send_present c hp e1, h1q, hs, send_present c hp e2, h2q]
        simp only [Bool.false_eq_true, if_false, hs]
  · intro hnone
    have hnil : selectDup c p.id p.timestamp p.amount w.store = [] := by
      unfold selectDup
      rw [List.filter_eq_nil_iff]
      intro r hr
      simp [hnone r hr]
    refine ⟨?_, ?_, ?_⟩
    · rw [send_present c hp, h1q, h1a, hnil]; rfl
    · rw [send_present c hp e1, h1q, h1a, hnil, send_present c hp e2, h2q, h2a]
      simp only [Bool.false_eq_true, if_false, hnil]
    · rw [send_present c hp e1, h1q, h1a, hnil, process_ok hf1 hf2,
        send_present c hp e2, h2q]
      have hid : (mkJob e1.uuid p).id = e1.uuid := rfl
      simp only [Bool.false_eq_true, if_false, hid,
        selectDup_after_process c hp hfresh hnone]
      rfl

/-- C4 amended, at the scenario payload and a store holding one unrelated row
(the no-match branch, its premise discharged). -/
theorem send_twice_witness :
    (send sampleConv ⟨false, false, "u1"⟩ (some scenarioPayload) otherWorld).1
        = ⟨200, .json "pending" "Transaction queued successfully" "u1"⟩ ∧
      (send sampleConv ⟨false, false, "u2"⟩ (some scenarioPayload)
          (send sampleConv ⟨false, false, "u1"⟩ (some scenarioPayload) otherWorld).2).1
        = ⟨200, .json "pending" "Transaction queued successfully" "u2"⟩ ∧
      (send sampleConv ⟨false, false, "u2"⟩ (some scenarioPayload)
          (process ⟨false, false, false⟩ (mkJob "u1" scenarioPayload)
            (send sampleConv ⟨false, false, "u1"⟩ (some scenarioPayload) otherWorld).2).2).1
        = ⟨200, .json "duplicate" "Transaction already exists" "u1"⟩ :=
  (send_twice sampleConv ⟨false, false, "u1"⟩ ⟨false, false, "u2"⟩ ⟨false, false, false⟩
    scenarioPayload otherWorld (by decide) rfl rfl rfl rfl rfl rfl (by decide)).2 (by decide)

/-- C4 as stated fails: on an empty store the scenario payload submitted twice
in succession is answered "pending" with id `u1` and then "pending" again with
the second generated id `u2`, not "duplicate" with `u1`. -/
theorem send_twice_in_succession_pending :
    (send sampleConv ⟨false, false, "u1"⟩ (some scenarioPayload) emptyWorld).1
        = ⟨200, .json "pending" "Transaction queued successfully" "u1"⟩ ∧
      (send sampleConv ⟨false, false, "u2"⟩ (some scenarioPayload)
          (send sampleConv ⟨false, false, "u1"⟩ (some scenarioPayload) emptyWorld).2).1
        = ⟨200, .json "pending" "Transaction queued successfully" "u2"⟩ ∧
      (send sampleConv ⟨false, false, "u2"⟩ (some scenarioPayload)
          (send sampleConv ⟨false, false, "u1"⟩ (some scenarioPayload) emptyWorld).2).1
        ≠ ⟨200, .json "duplicate" "Transaction already exists" "u1"⟩ := by
  decide

/-! ## End-to-end scenario -/

/-- C5 (end-to-end scenario).  Start from the empty store and take any payload
whose required fields pass the presence test (queries and enqueue succeeding).
(1) Submitting it answers "pending" with the generated id and the queue holds
exactly that one job.  (2) The processor run on that job with both store writes
succeeding acknowledges, and the store then holds exactly one row, with that id
and status completed.  (3) Submitting the same payload again answers
"duplicate" with that id, leaves the queue as it was, and the store still has
exactly one row. -/
theorem scenario_submit_process_resubmit (c : Conv) (e1 e2 : SendEnv) (f : Faults)
    (p : Payload) (hp : p.requiredPresent = true)
    (h1q : e1.queryFails = false) (h1a : e1.addFails = false)
    (h2q : e2.queryFails = false)
    (hf1 : f.step1 = false) (hf2 : f.step2 = false) :
    ((send c e1 (some p) emptyWorld).1
        = ⟨200, .json "pending" "Transaction queued successfully" e1.uuid⟩ ∧
      (send c e1 (some p) emptyWorld).2.queue = [⟨mkJob e1.uuid p, defaultOpts⟩] ∧
      (send c e1 (some p) emptyWorld).2.store = []) ∧
    ((process f (mkJob e1.uuid p) (send c e1 (some p) emptyWorld).2).1 = .ack ∧
      ∃ row,
        (process f (mkJob e1.uuid p) (send c e1 (some p) emptyWorld).2).2.store = [row] ∧
        row.id = e1.uuid ∧ row.status = .completed) ∧
    ((send c e2 (some p)
          (process f (mkJob e1.uuid p) (send c e1 (some p) emptyWorld).2).2).1
        = ⟨200, .json "duplicate" "Transaction already exists" e1.uuid⟩ ∧
      (send c e2 (some p)
          (process f (mkJob e1.uuid p) (send c e1 (some p) emptyWorld).2).2).2.queue
        = (process f (mkJob e1.uuid p) (send c e1 (some p) emptyWorld).2).2.queue ∧
      (send c e2 (some p)
          (process f (mkJob e1.uuid p) (send c e1 (some p) emptyWorld).2).2).2.store.length
        = 1) := by
  have hsend : send c e1 (some p) emptyWorld =
      (⟨200, .json "pending" "Transaction queued successfully" e1.uuid⟩,
        { store := [], queue := [⟨mkJob e1.uuid p, defaultOpts⟩],
          log := [Stmt.selectDup p.id p.timestamp p.amount] }) := by
    rw [send_present c hp, h1q, h1a]
    simp [selectDup, emptyWorld]
  have hstore : upsertCompleted (mkJob e1.uuid p)
      (setStatus .processing (mkJob e1.uuid p).id []) = [(mkJob e1.uuid p).toRow] := by
    simp [upsertCompleted, setStatus]
  have hdup : selectDup c p.id p.timestamp p.amount [(mkJob e1.uuid p).toRow]
      = [(mkJob e1.uuid p).toRow] := by
    simp [selectDup, toRow_matches c hp e1.uuid]
  rw [hsend, process_ok hf1 hf2]
  dsimp only
  rw [hstore]
  refine ⟨⟨rfl, rfl, rfl⟩, ⟨rfl, (mkJob e1.uuid p).toRow, rfl, rfl, rfl⟩, ?_⟩
  rw [send_present c hp e2, h2q]
  dsimp only
  rw [hdup]
  exact ⟨rfl, rfl, rfl⟩

/-- C5, at the payload of the specification's scenario. -/
theorem scenario_submit_process_resubmit_witness :
    ((send sampleConv ⟨false, false, "id1"⟩ (some scenarioPayload) emptyWorld).1
        = ⟨200, .json "pending" "Transaction queued successfully" "id1"⟩ ∧
      (send sampleConv ⟨false, false, "id1"⟩ (some scenarioPayload) emptyWorld).2.queue
        = [⟨mkJob "id1" scenarioPayload, defaultOpts⟩] ∧
      (send sampleConv ⟨false, false, "id1"⟩ (some scenarioPayload) emptyWorld).2.store
        = []) ∧
    ((process ⟨false, false, false⟩ (mkJob "id1" scenarioPayload)
          (send sampleConv ⟨false, false, "id1"⟩ (some scenarioPayload) emptyWorld).2).1
        = .ack ∧
      ∃ row,
        (process ⟨false, false, false⟩ (mkJob "id1" scenarioPayload)
          (send sampleConv ⟨false, false, "id1"⟩ (some scenarioPayload) emptyWorld).2).2.store
          = [row] ∧
        row.id = "id1" ∧ row.status = .completed) ∧
    ((send sampleConv ⟨false, false, "id2"⟩ (some scenarioPayload)
          (process ⟨false, false, false⟩ (mkJob "id1" scenarioPayload)
            (send sampleConv ⟨false, false, "id1"⟩ (some scenarioPayload) emptyWorld).2).2).1
        = ⟨200, .json "duplicate" "Transaction already exists" "id1"⟩ ∧
      (send sampleConv ⟨false, false, "id2"⟩ (some scenarioPayload)
          (process ⟨false, false, false⟩ (mkJob "id1" scenarioPayload)
            (send sampleConv ⟨false, false, "id1"⟩ (some scenarioPayload)
              emptyWorld).2).2).2.queue
        = (process ⟨false, false, false⟩ (mkJob "id1" scenarioPayload)
            (send sampleConv ⟨false, false, "id1"⟩ (some scenarioPayload)
              emptyWorld).2).2.queue ∧
      (send sampleConv ⟨false, false, "id2"⟩ (some scenarioPayload)
          (process ⟨false, false, false⟩ (mkJob "id1" scenarioPayload)
            (send sampleConv ⟨false, false, "id1"⟩ (some scenarioPayload)
              emptyWorld).2).2).2.store.length
        = 1) :=
  scenario_submit_process_resubmit sampleConv ⟨false, false, "id1"⟩ ⟨false, false, "id2"⟩
    ⟨false, false, false⟩ scenarioPayload (by decide) rfl rfl rfl rfl rfl

/-! ## Retry bound -/

/-- C6 (retry bound), as the code and the queue's retry policy have it.  A job
queued with the handler's options whose processing fails on every attempt
(step 1 or step 2 throws each time) is attempted exactly 5 times (the
processor's first statement is issued 5 times) and then dead-lettered with no
further retry.  If the store holds a row with the job's id and the `failed`
write of the last attempt succeeds, the store still holds such a row and every
row of that id has status failed. -/
theorem retry_bound (faults : Nat → Faults) (d : JobData) (w : World)
    (hf : ∀ n, (faults n).step1 = true ∨ (faults n).step2 = true) :
    (runJob faults ⟨d, defaultOpts⟩ w).attemptsMade = 5 ∧
      (runJob faults ⟨d, defaultOpts⟩ w).final = .deadLettered ∧
      (runJob faults ⟨d, defaultOpts⟩ w).world.log.count (.setStatus .processing d.id)
        = w.log.count (.setStatus .processing d.id) + 5 ∧
      ((∃ r ∈ w.store, r.id = d.id) → (faults 4).onFail = false →
        (∃ r ∈ (runJob faults ⟨d, defaultOpts⟩ w).world.store, r.id = d.id) ∧
        ∀ r ∈ (runJob faults ⟨d, defaultOpts⟩ w).world.store,
          r.id = d.id → r.status = .failed) := by
  obtain ⟨h1, h2, h3, h4, h5⟩ := attemptLoop_failing faults d hf 4 0 w
  have hrun : runJob faults ⟨d, defaultOpts⟩ w = attemptLoop faults d 4 0 w := rfl
  rw [hrun]
  refine ⟨by rw [h1], h2, h4, ?_⟩
  rintro ⟨r0, hr0, hid0⟩ hlast
  refine ⟨?_, h5 (by simpa using hlast)⟩
  have hmem : d.id ∈ (attemptLoop faults d 4 0 w).world.store.map Row.id := by
    rw [h3]
    exact hid0 ▸ List.mem_map_of_mem Row.id hr0
  obtain ⟨r, hr, hid⟩ := List.mem_map.1 hmem
  exact ⟨r, hr, hid⟩

/-- C6 amended, on a re-delivered job whose upsert throws on every attempt
while the status writes go through: 5 attempts, dead-lettered, row failed. -/
theorem retry_bound_witness :
    (runJob upsertDown ⟨scenarioJob, defaultOpts⟩ redeliveryWorld).attemptsMade = 5 ∧
      (runJob upsertDown ⟨scenarioJob, defaultOpts⟩ redeliveryWorld).final = .deadLettered ∧
      (∃ r ∈ (runJob upsertDown ⟨scenarioJob, defaultOpts⟩ redeliveryWorld).world.store,
        r.id = scenarioJob.id) ∧
      ∀ r ∈ (runJob upsertDown ⟨scenarioJob, defaultOpts⟩ redeliveryWorld).world.store,
        r.id = scenarioJob.id → r.status = .failed :=
  ⟨(retry_bound upsertDown scenarioJob redeliveryWorld (fun _ => Or.inr rfl)).1,
    (retry_bound upsertDown scenarioJob redeliveryWorld (fun _ => Or.inr rfl)).2.1,
    (retry_bound upsertDown scenarioJob redeliveryWorld (fun _ => Or.inr rfl)).2.2.2
      ⟨scenarioJob.toRow, List.mem_singleton.2 rfl, rfl⟩ rfl⟩

/-- C6 as stated fails: with the store unreachable on every attempt, the
re-delivered job is attempted 5 times and dead-lettered, yet its `failed` write
never goes through and the record's final status is completed, not failed. -/
theorem retry_exhausted_status_not_failed :
    (runJob storeDown ⟨scenarioJob, defaultOpts⟩ redeliveryWorld).attemptsMade = 5 ∧
      (runJob storeDown ⟨scenarioJob, defaultOpts⟩ redeliveryWorld).final = .deadLettered ∧
      (runJob storeDown ⟨scenarioJob, defaultOpts⟩ redeliveryWorld).world.store.map
          (fun r => (r.id, r.status))
        = [("id1", .completed)] := by
  decide

/-! ## The completion upsert -/

/-- C7 (upsert idempotence).  On a store with unique ids, run the completion
upsert for a job and then again for a job with the same id.  The store after
the two calls equals the store after the first; the second call is exactly the
status overwrite `status = completed` on the rows of that id (other fields and
other rows kept); the store holds exactly one row with that id, and its status
is completed. -/
theorem upsertCompleted_twice (d1 d2 : JobData) (rows : List Row)
    (hu : UniqueIds rows) (hid : d2.id = d1.id) :
    upsertCompleted d2 (upsertCompleted d1 rows) = upsertCompleted d1 rows ∧
      upsertCompleted d2 (upsertCompleted d1 rows)
        = setStatus .completed d1.id (upsertCompleted d1 rows) ∧
      ((upsertCompleted d2 (upsertCompleted d1 rows)).filter
          (fun r => decide (r.id = d1.id))).length = 1 ∧
      (∀ r ∈ upsertCompleted d2 (upsertCompleted d1 rows),
        r.id = d1.id → r.status = .completed) := by
  have hmem : d2.id ∈ (upsertCompleted d1 rows).map Row.id := by
    rw [hid]; exact mem_ids_upsertCompleted d1 rows
  have hset : upsertCompleted d2 (upsertCompleted d1 rows)
      = setStatus .completed d1.id (upsertCompleted d1 rows) := by
    rw [upsertCompleted_of_mem hmem, hid]
  have hsame : upsertCompleted d2 (upsertCompleted d1 rows) = upsertCompleted d1 rows := by
    rw [hset]
    exact setStatus_fixed (fun r hr h => upsertCompleted_status hr h)
  refine ⟨hsame, hset, ?_, ?_⟩
  · rw [hsame]
    exact filter_id_length_of_unique (uniqueIds_upsertCompleted hu)
      (mem_ids_upsertCompleted d1 rows)
  · rw [hsame]
    intro r hr h
    exact upsertCompleted_status hr h

/-- C7, for the scenario job on a store holding one unrelated row. -/
theorem upsertCompleted_twice_witness :
    upsertCompleted scenarioJob (upsertCompleted scenarioJob otherWorld.store)
        = upsertCompleted scenarioJob otherWorld.store ∧
      upsertCompleted scenarioJob (upsertCompleted scenarioJob otherWorld.store)
        = setStatus .completed scenarioJob.id (upsertCompleted scenarioJob otherWorld.store) ∧
      ((upsertCompleted scenarioJob (upsertCompleted scenarioJob otherWorld.store)).filter
          (fun r => decide (r.id = scenarioJob.id))).length = 1 ∧
      (∀ r ∈ upsertCompleted scenarioJob (upsertCompleted scenarioJob otherWorld.store),
        r.id = scenarioJob.id → r.status = .completed) :=
  upsertCompleted_twice scenarioJob scenarioJob otherWorld.store (by decide) rfl

/-! ## Status writes of the worker -/

/-- C8 (status writes), as the code has it.  One processor run touches only
rows with the job's id, and its status writes are not guarded by the current
status.  When both writes succeed the job's row exists and every row of that
id ends completed (a re-delivered completed row ends completed).  When step 1
or step 2 throws and the `failed` write goes through, every row of that id
ends failed, whatever its status was before, completed included.  When step 1
succeeds and both later writes throw, every row of that id is left processing.
When step 1 and the `failed` write both throw, the store is unchanged. -/
theorem process_status_writes (f : Faults) (d : JobData) (w : World) :
    (process f d w).2.store.filter (fun r => decide (r.id ≠ d.id))
        = w.store.filter (fun r => decide (r.id ≠ d.id)) ∧
      (f.step1 = false → f.step2 = false →
        (∃ r ∈ (process f d w).2.store, r.id = d.id) ∧
        ∀ r ∈ (process f d w).2.store, r.id = d.id → r.status = .completed) ∧
      ((f.step1 = true ∨ f.step2 = true) → f.onFail = false →
        ∀ r ∈ (process f d w).2.store, r.id = d.id → r.status = .failed) ∧
      (f.step1 = false → f.step2 = true → f.onFail = true →
        ∀ r ∈ (process f d w).2.store, r.id = d.id → r.status = .processing) ∧
      (f.step1 = true → f.onFail = true → (process f d w).2.store = w.store) := by
  refine ⟨?_, ?_, ?_, ?_, ?_⟩
  · cases h1 : f.step1
    · cases h2 : f.step2
      · rw [process_ok h1 h2]
        show (upsertCompleted d _).filter _ = _
        rw [filter_other_upsertCompleted, filter_other_setStatus]
      · rw [process_fail2 h1 h2]
        cases f.onFail
        · show (setStatus .failed d.id (setStatus .processing d.id w.store)).filter _ = _
          rw [filter_other_setStatus, filter_other_setStatus]
        · show (setStatus .processing d.id w.store).filter _ = _
          rw [filter_other_setStatus]
    · rw [process_fail1 h1]
      cases f.onFail
      · show (setStatus .failed d.id w.store).filter _ = _
        rw [filter_other_setStatus]
      · rfl
  · intro h1 h2
    rw [process_ok h1 h2]
    refine ⟨?_, fun r hr hid => upsertCompleted_status hr hid⟩
    obtain ⟨r, hr, hid⟩ := List.mem_map.1
      (mem_ids_upsertCompleted d (setStatus .processing d.id w.store))
    exact ⟨r, hr, hid⟩
  · intro hf h3
    exact (process_failing hf d w).2.2.2.2 h3
  · intro h1 h2 h3 r hr hid
    rw [process_fail2 h1 h2] at hr
    simp only [h3, if_true] at hr
    exact mem_setStatus_status hr hid
  · intro h1 h3
    rw [process_fail1 h1]
    simp [h3]

/-- C8 amended, on the re-delivered scenario job with the upsert throwing and
the `failed` write going through (the failure branch, its premises
discharged). -/
theorem process_status_writes_witness :
    (process ⟨false, true, false⟩ scenarioJob redeliveryWorld).2.store.filter
          (fun r => decide (r.id ≠ scenarioJob.id))
        = redeliveryWorld.store.filter (fun r => decide (r.id ≠ scenarioJob.id)) ∧
      ∀ r ∈ (process ⟨false, true, false⟩ scenarioJob redeliveryWorld).2.store,
        r.id = scenarioJob.id → r.status = .failed :=
  ⟨(process_status_writes ⟨false, true, false⟩ scenarioJob redeliveryWorld).1,
    (process_status_writes ⟨false, true, false⟩ scenarioJob redeliveryWorld).2.2.1
      (Or.inr rfl) rfl⟩

/-- C8 as stated fails: the re-delivered scenario job finds its row with status
completed; step 1 succeeds, the upsert throws, and the run leaves that row with
status failed. -/
theorem process_moves_completed_to_failed :
    redeliveryWorld.store.map (fun r => (r.id, r.status)) = [("id1", .completed)] ∧
      (process ⟨false, true, false⟩ scenarioJob redeliveryWorld).1 = .fail ∧
      (process ⟨false, true, false⟩ scenarioJob redeliveryWorld).2.store.map
          (fun r => (r.id, r.status))
        = [("id1", .failed)] := by
  decide

/-! ## Amount validation -/

/-- C9 (amount validation), as the code has it.  A payload the handler answers
with 200 ("pending" or "duplicate") has a truthy amount; if the amount is a
number it is not zero.  A payload whose amount is the number zero is answered
with 400, and the world is returned untouched: no duplicate query in the log,
no job in the queue, the store unchanged.  Nothing rejects a negative amount. -/
theorem send_amount_check (c : Conv) (env : SendEnv) (p : Payload) (w : World) :
    ((send c env (some p) w).1.code = 200 →
        p.amount.truthy = true ∧ ∀ q, p.amount = .num q → q ≠ 0) ∧
      (p.amount = .num 0 →
        (send c env (some p) w).1.code = 400 ∧
        (send c env (some p) w).2.log = w.log ∧
        (send c env (some p) w).2.queue = w.queue ∧
        (send c env (some p) w).2.store = w.store) := by
  constructor
  · intro hcode
    have ht : p.amount.truthy = true := by
      cases h : p.amount.truthy
      · rw [send_reject c env p w (Or.inr (Or.inl h))] at hcode
        exact absurd hcode (by simp)
      · rfl
    refine ⟨ht, ?_⟩
    intro q hq hz
    rw [hq, hz] at ht
    exact absurd ht (by decide)
  · intro hz
    have hf : p.amount.truthy = false := by rw [hz]; decide
    rw [send_reject c env p w (Or.inr (Or.inl hf))]
    exact ⟨rfl, rfl, rfl, rfl⟩

/-- C9 amended, at the scenario payload with amount zero (the rejection
branch, its premise discharged). -/
theorem send_amount_check_witness :
    (send sampleConv ⟨false, false, "u1"⟩ (some zeroAmountPayload) otherWorld).1.code = 400 ∧
      (send sampleConv ⟨false, false, "u1"⟩ (some zeroAmountPayload) otherWorld).2.log
        = otherWorld.log ∧
      (send sampleConv ⟨false, false, "u1"⟩ (some zeroAmountPayload) otherWorld).2.queue
        = otherWorld.queue ∧
      (send sampleConv ⟨false, false, "u1"⟩ (some zeroAmountPayload) otherWorld).2.store
        = otherWorld.store :=
  (send_amount_check sampleConv ⟨false, false, "u1"⟩ zeroAmountPayload otherWorld).2 rfl

/-- C9 as stated fails: a payload with amount -5 is accepted, answered
"pending", its duplicate query is run and its job is queued. -/
theorem send_accepts_negative_amount :
    negativeAmountPayload.amount = .num (-5) ∧
      (send sampleConv ⟨false, false, "u1"⟩ (some negativeAmountPayload) emptyWorld).1
        = ⟨200, .json "pending" "Transaction queued successfully" "u1"⟩ ∧
      (send sampleConv ⟨false, false, "u1"⟩ (some negativeAmountPayload) emptyWorld).2.log
        = [.selectDup (.str "C1") (.str "2024-01-01T00:00:00Z") (.num (-5))] ∧
      (send sampleConv ⟨false, false, "u1"⟩ (some negativeAmountPayload) emptyWorld).2.queue
        = [⟨mkJob "u1" negativeAmountPayload, defaultOpts⟩] := by
  decide

/-! ## Failure signalling of the processor -/

/-- C10 (worker failure signalling).  One run of the queue processor rejects
if and only if the step-1 status write or the step-2 upsert throws, and
resolves if and only if both succeed.  The statements it issues are, in order:
the step-1 write, the upsert unless step 1 threw, and, exactly when it rejects,
the write `status = failed` for the job's id as the last statement before the
throw.  A resolving run issues no `failed` write. -/
theorem process_signal (f : Faults) (d : JobData) (w : World) :
    ((process f d w).1 = .fail ↔ (f.step1 = true ∨ f.step2 = true)) ∧
      ((process f d w).1 = .ack ↔ (f.step1 = false ∧ f.step2 = false)) ∧
      (process f d w).2.log
        = w.log ++
          (if f.step1 then [.setStatus .processing d.id, .setStatus .failed d.id]
           else if f.step2 then
            [.setStatus .processing d.id, .upsertCompleted d, .setStatus .failed d.id]
           else [.setStatus .processing d.id, .upsertCompleted d]) ∧
      ((process f d w).1 = .fail →
        (process f d w).2.log.getLast? = some (.setStatus .failed d.id)) ∧
      ((process f d w).1 = .ack →
        (process f d w).2.log.count (.setStatus .failed d.id)
          = w.log.count (.setStatus .failed d.id)) := by
  cases h1 : f.step1
  · cases h2 : f.step2
    · rw [process_ok h1 h2]
      simp [List.count_append, List.count_cons]
    · rw [process_fail2 h1 h2]
      simp [List.getLast?_append]
  · rw [process_fail1 h1]
    simp [List.getLast?_append]

/-! ## Step 1 on a job without a row -/

/-- C11 (step 1 on an absent row), as the code has it.  For a job and a store
with no row of the job's id, the worker's first store write (the UPDATE that
sets `status = processing`), when it succeeds, leaves the store exactly as it
was: no row of that id exists afterwards, so none has status processing.  The
same holds for a whole processor run in which step 1 succeeds and the later
writes throw. -/
theorem step1_creates_no_row (d : JobData) (w : World)
    (h : ∀ r ∈ w.store, r.id ≠ d.id) :
    (execWrite false (.setStatus .processing d.id) (setStatus .processing d.id) w).1 = true ∧
      (execWrite false (.setStatus .processing d.id) (setStatus .processing d.id) w).2.store
        = w.store ∧
      (∀ r ∈ (execWrite false (.setStatus .processing d.id)
          (setStatus .processing d.id) w).2.store, r.id ≠ d.id) ∧
      (process ⟨false, true, true⟩ d w).2.store = w.store := by
  have hnot : d.id ∉ w.store.map Row.id := by
    intro hm
    obtain ⟨r, hr, hid⟩ := List.mem_map.1 hm
    exact h r hr hid
  have hstore : (execWrite false (.setStatus .processing d.id)
      (setStatus .processing d.id) w).2.store = w.store := by
    show setStatus .processing d.id w.store = w.store
    exact setStatus_of_not_mem hnot
  refine ⟨rfl, hstore, ?_, ?_⟩
  · rw [hstore]
    exact h
  · rw [process_fail2 rfl rfl]
    show setStatus .processing d.id w.store = w.store
    exact setStatus_of_not_mem hnot

/-- C11 at the failing input: the scenario job on the empty store.  After the
successful step-1 write the store is still empty. -/
theorem step1_creates_no_row_witness :
    (execWrite false (.setStatus .processing scenarioJob.id)
        (setStatus .processing scenarioJob.id) emptyWorld).1 = true ∧
      (execWrite false (.setStatus .processing scenarioJob.id)
        (setStatus .processing scenarioJob.id) emptyWorld).2.store = [] ∧
      (process ⟨false, true, true⟩ scenarioJob emptyWorld).2.store = [] :=
  ⟨(step1_creates_no_row scenarioJob emptyWorld (by decide)).1,
    (step1_creates_no_row scenarioJob emptyWorld (by decide)).2.1,
    (step1_creates_no_row scenarioJob emptyWorld (by decide)).2.2.2⟩

end TransactionSystems
